import Mathlib

/-!
Shallow embedding of the mujibot Discord bot (src/BOT.py): per-user account
state, the daily-favorite gate, the waifame economy, mini-games (slots,
daily claim, theft, blackjack), the per-guild navigation histories, and the
interactive-view callbacks with their authorization checks.

Machine integers are modelled as Int/Nat; Python floats that only feed
`int(...)` truncations are modelled as exact rationals; Python dicts holding
account fields are modelled as a structure; the randomness (symbol draws,
uniform fractions, shuffled decks) is passed in as explicit parameters.
A shuffled deck is given in draw order: the head of the list is the next
card popped (the source pops from the end of its Python list).
-/

/-- Snapshot stored by the favorite button: id, file_url, rating,
tag_string, tag_string_character. -/
structure FavoriteEntry where
  id : Nat
  file_url : String
  rating : String
  tag_string : String
  tag_string_character : String
deriving DecidableEq

/-- Per-user persisted account record (the per-uid dict in user_data,
including the mini-game fields added on first use). -/
structure UserData where
  favorites : List FavoriteEntry
  view_count : Nat
  waifame : Int
  daily_favs : Nat
  last_fav_date : String
  daily_streak : Nat
  last_daily : String
  fish_caught : Nat
  last_fish : Int
  last_steal : Int
deriving DecidableEq

/-- Fresh account created by get_user_data on first access. -/
def defaultUserData : UserData :=
  { favorites := []
    view_count := 0
    waifame := 0
    daily_favs := 0
    last_fav_date := ""
    daily_streak := 0
    last_daily := ""
    fish_caught := 0
    last_fish := 0
    last_steal := 0 }

/-- Fields of a fetched Danbooru post that the economy reads: score,
fav_count, and the artist tag list (tag_string_artist split on spaces). -/
structure Post where
  score : Int
  fav_count : Nat
  tag_string_artist : List String
deriving DecidableEq

/-- can_add_favorite: lazily resets the daily counter when the stored
last-favorite date differs from today, then reports whether fewer than 5
favorites were used; returns the possibly-reset account as well, since the
source mutates the dict in place. -/
def can_add_favorite (d : UserData) (today : String) : Bool × UserData :=
  let d1 := if d.last_fav_date ≠ today
            then { d with daily_favs := 0, last_fav_date := today }
            else d
  (decide (d1.daily_favs < 5), d1)

/-- use_daily_favorite: same lazy reset, then increments the counter and
returns 5 minus the counter (the remaining slot count). -/
def use_daily_favorite (d : UserData) (today : String) : Int × UserData :=
  let d1 := if d.last_fav_date ≠ today
            then { d with daily_favs := 0, last_fav_date := today }
            else d
  let d2 := { d1 with daily_favs := d1.daily_favs + 1 }
  ((5 : Int) - (d2.daily_favs : Int), d2)

/-- Iterated consumption of daily favorite slots on one fixed date. -/
def consumeN : Nat → UserData → String → UserData
  | 0, d, _ => d
  | n + 1, d, today => consumeN n (use_daily_favorite d today).2 today

/-- increment_view_count: bumps the view counter and returns the new count;
the post argument is accepted but unused (waifame is not awarded here). -/
def increment_view_count (d : UserData) (_post : Option Post) : Nat × UserData :=
  let d1 := { d with view_count := d.view_count + 1 }
  (d1.view_count, d1)

/-- Threshold table from get_artist_fame_bonus: post-count to bonus. -/
def fame_bonus_of_count (post_count : Nat) : Nat :=
  if post_count ≥ 10000 then 10
  else if post_count ≥ 5000 then 7
  else if post_count ≥ 2000 then 5
  else if post_count ≥ 1000 then 3
  else if post_count ≥ 500 then 2
  else if post_count ≥ 100 then 1
  else 0

/-- get_artist_fame_bonus: first artist tag, looked up through the
(memoized) tag-search call; a failed or empty lookup yields post-count 0.
The lookup is abstracted as a function returning none on failure. -/
def get_artist_fame_bonus (lookup : String → Option Nat) (p : Post) : Nat :=
  match p.tag_string_artist with
  | [] => 0
  | artist_name :: _ => fame_bonus_of_count ((lookup artist_name).getD 0)

/-- calculate_waifame: 1 base + score bonus + favorite-count bonus +
artist fame bonus. -/
def calculate_waifame (lookup : String → Option Nat) (p : Post) : Nat :=
  let base := 1
  let score_bonus := (max 0 p.score).toNat / 50
  let fav_bonus := p.fav_count / 100
  let artist_bonus := get_artist_fame_bonus lookup p
  base + score_bonus + fav_bonus + artist_bonus

/-- Spec-side threshold table, written as the spec lists it. -/
def artistFameBonusSpecTable : List (Nat × Nat) :=
  [(10000, 10), (5000, 7), (2000, 5), (1000, 3), (500, 2), (100, 1)]

/-- Spec-side mapping of a post-count through the first matching threshold
of the table, defaulting to 0. -/
def bonusFromTable : List (Nat × Nat) → Nat → Nat
  | [], _ => 0
  | (threshold, b) :: rest, n => if n ≥ threshold then b else bonusFromTable rest n

/-- Spec-side artist fame bonus of a post-count. -/
def artistFameBonusSpec (n : Nat) : Nat :=
  bonusFromTable artistFameBonusSpecTable n

/-- Spec-side earned-currency formula: 1 + floor(max(0,score)/50) +
floor(favCount/100) + fame bonus of the first artist's post-count, a failed
or empty lookup counting as post-count 0. -/
def computeEarnedCurrencySpec (lookup : String → Option Nat) (p : Post) : Nat :=
  1 + (max 0 p.score).toNat / 50 + p.fav_count / 100 +
    artistFameBonusSpec
      (match p.tag_string_artist with
       | [] => 0
       | artist_name :: _ => (lookup artist_name).getD 0)

/-- Result of the favorite button toggle. -/
inductive FavResult
  | removed
  | added (remaining : Int)
  | dailyLimitReached
deriving DecidableEq

/-- Account-level body of ImageView.fav_callback: remove when the post id is
already favorited (always allowed); otherwise gate on can_add_favorite,
append the snapshot and consume a daily slot. -/
def fav_callback (d : UserData) (today : String) (entry : FavoriteEntry) :
    FavResult × UserData :=
  let pid := entry.id
  if d.favorites.any (fun p => p.id == pid) then
    (FavResult.removed, { d with favorites := d.favorites.filter (fun p => p.id ≠ pid) })
  else
    let r := can_add_favorite d today
    if r.1 then
      let d2 := { r.2 with favorites := r.2.favorites ++ [entry] }
      let u := use_daily_favorite d2 today
      (FavResult.added u.1, u.2)
    else
      (FavResult.dailyLimitReached, r.2)

/-- Python truthiness of the optional bound user id (None and 0 are falsy). -/
def py_truthy : Option Nat → Bool
  | none => false
  | some u => decide (u ≠ 0)

/-- ImageView.check_user / VideoView.check_user: when the view is bound to a
(truthy) user id, only that user may act. -/
def check_user (bound : Option Nat) (actor : Nat) : Bool :=
  if py_truthy bound ∧ actor ≠ bound.getD 0 then false else true

/-- Outcome reported by an interactive callback. -/
inductive Response
  | authDenied
  | ok
  | fetchFailed
  | nothingToRewind
  | modalOpened
  | favRemoved
  | favAdded (remaining : Int)
  | favLimitReached
  | runtimeError (msg : String)
  | gameOver
  | continueRound
  | bustLoss (amount : Int)
  | standWin (winnings : Int)
  | standLose (amount : Int)
  | standPush
  | quizAlreadyAnswered
  | quizCorrect
  | quizWrong
deriving DecidableEq

/-- Mutable state of one ImageView session message. -/
structure ImageSession where
  user_id : Option Nat
  current_tags : String
  post : Nat
deriving DecidableEq

/-- The state an ImageView callback can touch: the acting account, the
guild's image history (posts by id, most recent last), and the session. -/
structure ImageWorld where
  account : UserData
  hist : List Nat
  session : ImageSession
deriving DecidableEq

/-- Python return value shapes relevant to the view-count call sites. -/
inductive PyValue
  | pyInt (n : Int)
  | pyTuple3 (a b c : Int)
deriving DecidableEq

/-- Python tuple destructuring into three names: succeeds only on a
3-tuple, raises TypeError otherwise. -/
def unpack3 : PyValue → Option (Int × Int × Int)
  | PyValue.pyTuple3 a b c => some (a, b, c)
  | _ => none

/-- ImageView.update_image success path: append the fetched post to the
guild history, display it, and (for a truthy bound user) destructure the
result of increment_view_count into three names. -/
def update_image (w : ImageWorld) (fetched : Option Nat) : Response × ImageWorld :=
  match fetched with
  | none => (Response.fetchFailed, w)
  | some pid =>
    let w1 := { w with hist := w.hist ++ [pid],
                       session := { w.session with post := pid } }
    if py_truthy w1.session.user_id then
      let r := increment_view_count w1.account none
      let w2 := { w1 with account := r.2 }
      match unpack3 (PyValue.pyInt (r.1 : Int)) with
      | some _ => (Response.ok, w2)
      | none => (Response.runtimeError ("TypeError: cannot unpack non-iterable int object"), w2)
    else
      (Response.ok, w1)

/-- ImageView.safe_callback: auth check, set the safe filter, fetch. -/
def safe_callback (w : ImageWorld) (actor : Nat) (fetched : Option Nat) :
    Response × ImageWorld :=
  if check_user w.session.user_id actor = false then (Response.authDenied, w)
  else
    update_image
      { w with session := { w.session with current_tags := "rating:safe" } } fetched

/-- ImageView.ques_callback: auth check, set the questionable filter, fetch. -/
def ques_callback (w : ImageWorld) (actor : Nat) (fetched : Option Nat) :
    Response × ImageWorld :=
  if check_user w.session.user_id actor = false then (Response.authDenied, w)
  else
    update_image
      { w with session := { w.session with current_tags := "rating:questionable" } } fetched

/-- ImageView.expl_callback: auth check, set the explicit filter, fetch. -/
def expl_callback (w : ImageWorld) (actor : Nat) (fetched : Option Nat) :
    Response × ImageWorld :=
  if check_user w.session.user_id actor = false then (Response.authDenied, w)
  else
    update_image
      { w with session := { w.session with current_tags := "rating:explicit" } } fetched

/-- ImageView.next_callback: auth check, then fetch the next image. -/
def next_callback (w : ImageWorld) (actor : Nat) (fetched : Option Nat) :
    Response × ImageWorld :=
  if check_user w.session.user_id actor = false then (Response.authDenied, w)
  else update_image w fetched

/-- ImageView.search_callback: auth check, then open the search modal
(no state mutated by opening it). -/
def search_callback (w : ImageWorld) (actor : Nat) : Response × ImageWorld :=
  if check_user w.session.user_id actor = false then (Response.authDenied, w)
  else (Response.modalOpened, w)

/-- Pop-on-rewind over the guild image history: only when more than one
entry exists, drop the most recent entry and return the new tail. -/
def image_rewind (hist : List Nat) : Option (Nat × List Nat) :=
  if hist.length > 1 then
    match (hist.dropLast).getLast? with
    | some prev => some (prev, hist.dropLast)
    | none => none
  else none

/-- The identical pop-on-rewind of VideoView.rewind_callback over the
independent video history. -/
def video_rewind (vhist : List Nat) : Option (Nat × List Nat) :=
  if vhist.length > 1 then
    match (vhist.dropLast).getLast? with
    | some prev => some (prev, vhist.dropLast)
    | none => none
  else none

/-- ImageView.rewind_callback: auth check, then pop-on-rewind; with fewer
than two entries it only reports that there is nothing to go back to. -/
def rewind_callback (w : ImageWorld) (actor : Nat) : Response × ImageWorld :=
  if check_user w.session.user_id actor = false then (Response.authDenied, w)
  else
    match image_rewind w.hist with
    | some r =>
      (Response.ok, { w with hist := r.2, session := { w.session with post := r.1 } })
    | none => (Response.nothingToRewind, w)

/-- ImageView.fav_callback: auth check, bind the session to the actor when
it was unbound, then toggle the favorite on the account. -/
def fav_button_callback (w : ImageWorld) (actor : Nat) (today : String)
    (entry : FavoriteEntry) : Response × ImageWorld :=
  if check_user w.session.user_id actor = false then (Response.authDenied, w)
  else
    let w1 := if py_truthy w.session.user_id then w
              else { w with session := { w.session with user_id := some actor } }
    match fav_callback w1.account today entry with
    | (FavResult.removed, d) => (Response.favRemoved, { w1 with account := d })
    | (FavResult.added r, d) => (Response.favAdded r, { w1 with account := d })
    | (FavResult.dailyLimitReached, d) => (Response.favLimitReached, { w1 with account := d })

/-- State of one quiz message: the precomputed correct label, the user who
launched the quiz, and the one-shot answered flag. -/
structure QuizState where
  correct_answer : String
  user_id : Nat
  answered : Bool
deriving DecidableEq

/-- QuizView answer-button callback: rejects only a second answer; the
acting user is never compared against the stored user_id. -/
def quiz_answer_callback (q : QuizState) (_actor : Nat) (answer : String) :
    Response × QuizState :=
  if q.answered then (Response.quizAlreadyAnswered, q)
  else
    let q1 := { q with answered := true }
    if answer.toLower == q.correct_answer.toLower then (Response.quizCorrect, q1)
    else (Response.quizWrong, q1)

/-- Slot symbols, commonest first (weights 30/25/20/15/10). -/
inductive SlotSymbol
  | cherry
  | lemon
  | orange
  | diamond
  | seven
deriving DecidableEq

/-- slots: minimum wager 10, wager at most the balance; three of a kind
pays 20x on sevens, 15x on diamonds, 10x otherwise; exactly two matching
pays 2x; otherwise the wager is lost. The three drawn symbols are passed
in explicitly. -/
def slots (d : UserData) (mise : Int) (s1 s2 s3 : SlotSymbol) : Option UserData :=
  if mise < 10 then none
  else if d.waifame < mise then none
  else
    let winnings :=
      if s1 = s2 ∧ s2 = s3 then
        if s1 = SlotSymbol.seven then mise * 20
        else if s1 = SlotSymbol.diamond then mise * 15
        else mise * 10
      else if s1 = s2 ∨ s2 = s3 ∨ s1 = s3 then mise * 2
      else 0
    some { d with waifame := d.waifame - mise + winnings }

/-- daily: one claim per calendar date; streak continues only when the
stored date is exactly yesterday; reward is the uniform draw in [50,150]
plus min(streak*10, 100). Returns none on a same-date second claim. -/
def daily (d : UserData) (today yesterday : String) (draw : Nat) : Option UserData :=
  if d.last_daily = today then none
  else
    let streak := if d.last_daily = yesterday then d.daily_streak + 1 else 1
    let base_reward := draw
    let streak_bonus := min (streak * 10) 100
    let total_reward := base_reward + streak_bonus
    some { d with waifame := d.waifame + (total_reward : Int),
                  last_daily := today,
                  daily_streak := streak }

/-- Python int() on a rational: truncation toward zero. -/
def pyTrunc (q : ℚ) : Int :=
  if 0 ≤ q then ⌊q⌋ else ⌈q⌉

/-- Result of a theft attempt. -/
inductive StealResult
  | onCooldown (minutes : Int)
  | targetTooPoor
  | success (stolen : Int) (thief victim : UserData)
  | failure (fine : Int) (thief victim : UserData)
deriving DecidableEq

/-- steal: 1-hour cooldown on the acting account, target must hold at
least 50; on the success draw, transfer max(int(fraction*victim), 10)
from victim to thief; on the failure draw, fine the thief
max(int(0.20*own), 10) floored at 0 and leave the victim untouched.
The success draw and the uniform fraction are passed in explicitly. -/
def steal (thief victim : UserData) (now : Int) (success_draw : Bool)
    (steal_percent : ℚ) : StealResult :=
  let time_left := thief.last_steal + 60 * 60 - now
  if time_left > 0 then StealResult.onCooldown (time_left / 60)
  else if victim.waifame < 50 then StealResult.targetTooPoor
  else
    let thief1 := { thief with last_steal := now }
    if success_draw then
      let stolen := max (pyTrunc (steal_percent * (victim.waifame : ℚ))) 10
      StealResult.success stolen
        { thief1 with waifame := thief1.waifame + stolen }
        { victim with waifame := victim.waifame - stolen }
    else
      let fine := max (pyTrunc ((1 / 5 : ℚ) * (thief.waifame : ℚ))) 10
      StealResult.failure fine
        { thief1 with waifame := max 0 (thief1.waifame - fine) }
        victim

/-- Playing card: rank string and suit string. -/
abbrev Card := String × String

/-- Decimal parse of a rank numeral (the int(card) call of the source). -/
def py_int_parse (s : String) : Nat :=
  s.data.foldl (fun acc ch => acc * 10 + (ch.toNat - ('0').toNat)) 0

/-- Base value of a rank before soft-ace adjustment: faces count 10, an
ace counts 11, pips parse as their number. -/
def card_base_value (c : String) : Nat :=
  if c = "J" ∨ c = "Q" ∨ c = "K" then 10
  else if c = "A" then 11
  else py_int_parse c

/-- Sum of base values of a hand (the accumulation loop of hand_value). -/
def raw_hand_value (hand : List Card) : Nat :=
  hand.foldl (fun acc c => acc + card_base_value c.1) 0

/-- Number of aces in a hand. -/
def ace_count (hand : List Card) : Nat :=
  (hand.filter (fun c => c.1 = "A")).length

/-- The while-loop of hand_value: subtract 10 for one ace at a time while
the total exceeds 21 and an unsoftened ace remains. -/
def soften (value : Nat) : Nat → Nat
  | 0 => value
  | a + 1 => if value > 21 then soften (value - 10) a else value

/-- hand_value: accumulate base values counting aces as 11, then soften. -/
def hand_value (hand : List Card) : Nat :=
  soften (raw_hand_value hand) (ace_count hand)

/-- One open blackjack round: remaining deck in draw order, both hands,
the wager, and the active flag. -/
structure BJGame where
  deck : List Card
  player : List Card
  dealer : List Card
  mise : Int
  active : Bool
deriving DecidableEq

/-- Outcome of the blackjack command before any button press. -/
inductive BJStart
  | wagerTooSmall
  | insufficientFunds
  | deckExhausted
  | natural (winnings : Int) (d : UserData)
  | playing (g : BJGame) (d : UserData)
deriving DecidableEq

/-- blackjack command: minimum wager 10, wager at most the balance; deal
two cards each from the shuffled deck (given in draw order); a two-card 21
settles immediately as a natural paying int(mise * 2.5); otherwise the
round is stored and play begins. -/
def blackjack_start (d : UserData) (mise : Int) (deck : List Card) : BJStart :=
  if mise < 10 then BJStart.wagerTooSmall
  else if d.waifame < mise then BJStart.insufficientFunds
  else
    match deck with
    | p1 :: p2 :: c1 :: c2 :: rest =>
      let player_hand := [p1, p2]
      let dealer_hand := [c1, c2]
      if hand_value player_hand = 21 then
        let winnings := 5 * mise / 2
        BJStart.natural winnings { d with waifame := d.waifame + winnings - mise }
      else
        BJStart.playing
          { deck := rest, player := player_hand, dealer := dealer_hand,
            mise := mise, active := true } d
    | _ => BJStart.deckExhausted

/-- BlackjackView.hit: auth check, liveness check, draw one card; a total
above 21 busts, losing the wager with no clamp; otherwise the round
continues. Returns the response, the account, and the stored round
(none when the round was deleted). -/
def bj_hit (bound actor : Nat) (d : UserData) (g : Option BJGame) (mise : Int) :
    Response × UserData × Option BJGame :=
  if actor ≠ bound then (Response.authDenied, d, g)
  else
    match g with
    | none => (Response.gameOver, d, none)
    | some game =>
      if game.active = false then (Response.gameOver, d, some game)
      else
        match game.deck with
        | [] => (Response.runtimeError ("IndexError: pop from empty list"), d, some game)
        | c :: rest =>
          let player_hand := game.player ++ [c]
          if hand_value player_hand > 21 then
            (Response.bustLoss mise, { d with waifame := d.waifame - mise }, none)
          else
            (Response.continueRound, d,
             some { game with deck := rest, player := player_hand })

/-- Dealer drawing loop: draw from the deck (in draw order) while the
dealer total is below 17. -/
def dealer_draw : List Card → List Card → List Card × List Card
  | [], dealer_hand => (dealer_hand, [])
  | c :: rest, dealer_hand =>
    if hand_value dealer_hand < 17 then dealer_draw rest (dealer_hand ++ [c])
    else (dealer_hand, c :: rest)

/-- BlackjackView.stand: auth check, liveness check, dealer plays to 17,
then standard settlement: dealer bust or higher player total pays 2x,
lower player total loses the wager with no clamp, equal totals push. -/
def bj_stand (bound actor : Nat) (d : UserData) (g : Option BJGame) (mise : Int) :
    Response × UserData × Option BJGame :=
  if actor ≠ bound then (Response.authDenied, d, g)
  else
    match g with
    | none => (Response.gameOver, d, none)
    | some game =>
      if game.active = false then (Response.gameOver, d, some game)
      else
        let r := dealer_draw game.deck game.dealer
        let player_val := hand_value game.player
        let dealer_val := hand_value r.1
        if dealer_val > 21 ∨ player_val > dealer_val then
          let winnings := mise * 2
          (Response.standWin winnings,
           { d with waifame := d.waifame + winnings - mise }, none)
        else if player_val < dealer_val then
          (Response.standLose mise, { d with waifame := d.waifame - mise }, none)
        else
          (Response.standPush, d, none)

/-- vnext success branch: append to the video history, then destructure the
single integer returned by increment_view_count into three names. -/
def vnext_success (d : UserData) (vhist : List Nat) (pid : Nat) :
    Response × UserData × List Nat :=
  let vhist1 := vhist ++ [pid]
  let r := increment_view_count d none
  match unpack3 (PyValue.pyInt (r.1 : Int)) with
  | some _ => (Response.ok, r.2, vhist1)
  | none => (Response.runtimeError ("TypeError: cannot unpack non-iterable int object"), r.2, vhist1)

/-- VideoView.update_video success path: append to the video history and,
for a truthy bound user, destructure the result of increment_view_count
into three names. -/
def update_video (user_id : Option Nat) (d : UserData) (vhist : List Nat) (pid : Nat) :
    Response × UserData × List Nat :=
  let vhist1 := vhist ++ [pid]
  if py_truthy user_id then
    let r := increment_view_count d none
    match unpack3 (PyValue.pyInt (r.1 : Int)) with
    | some _ => (Response.ok, r.2, vhist1)
    | none => (Response.runtimeError ("TypeError: cannot unpack non-iterable int object"), r.2, vhist1)
  else
    (Response.ok, d, vhist1)

/-- Favorite-entry snapshot used for concrete instantiations. -/
def entry0 : FavoriteEntry :=
  { id := 1, file_url := "", rating := "", tag_string := "", tag_string_character := "" }

/-- Concrete account holding 100 waifame. -/
def acct100 : UserData := { defaultUserData with waifame := 100 }

/-- Concrete account holding 90 waifame. -/
def acct90 : UserData := { defaultUserData with waifame := 90 }

/-- Concrete account holding 80 waifame. -/
def acct80 : UserData := { defaultUserData with waifame := 80 }

/-- Concrete account holding 116 waifame. -/
def acct116 : UserData := { defaultUserData with waifame := 116 }

/-- Concrete account after a failed theft fine: 80 waifame, cooldown set. -/
def acct80cd : UserData := { defaultUserData with waifame := 80, last_steal := 4000 }

/-- Concrete account after a successful theft: 120 waifame, cooldown set. -/
def acct120cd : UserData := { defaultUserData with waifame := 120, last_steal := 4000 }

/-- Concrete account that already claimed the daily reward on 2025-01-02. -/
def acctClaimed : UserData := { defaultUserData with last_daily := "2025-01-02" }

/-- Image session bound to user 1. -/
def sessionBound : ImageSession :=
  { user_id := some 1, current_tags := "rating:safe", post := 0 }

/-- Image session with no bound user. -/
def sessionFree : ImageSession :=
  { user_id := none, current_tags := "rating:safe", post := 0 }

/-- Image world with a session bound to user 1. -/
def wBound : ImageWorld := { account := defaultUserData, hist := [], session := sessionBound }

/-- Image world with an unbound session. -/
def wFree : ImageWorld := { account := defaultUserData, hist := [], session := sessionFree }

/-- Concrete shuffled deck (draw order) dealing the player 10 and 5. -/
def deckC4 : List Card := [("10", "S"), ("5", "S"), ("9", "H"), ("8", "H"), ("K", "D")]

/-- The stored round after dealing deckC4 with a wager of 100. -/
def gC4 : BJGame :=
  { deck := [("K", "D")], player := [("10", "S"), ("5", "S")],
    dealer := [("9", "H"), ("8", "H")], mise := 100, active := true }

/-- Concrete shuffled deck (draw order) dealing the player ace and king. -/
def deckC6 : List Card := [("A", "S"), ("K", "H"), ("2", "D"), ("3", "C")]

/-- Image world bound to user 1 whose guild history holds one entry. -/
def wRew : ImageWorld := { account := defaultUserData, hist := [5], session := sessionBound }

/-- Characterization of one slot consumption when the stored date already
equals today: only the counter moves. -/
theorem use_daily_favorite_same (d : UserData) (today : String)
    (h : d.last_fav_date = today) :
    (use_daily_favorite d today).2 = { d with daily_favs := d.daily_favs + 1 } := by
  simp [use_daily_favorite, h]

/-- Characterization of one slot consumption on a new day: the counter is
reset before the increment and the date is stamped. -/
theorem use_daily_favorite_diff (d : UserData) (today : String)
    (h : ¬ d.last_fav_date = today) :
    (use_daily_favorite d today).2 =
      { d with daily_favs := 1, last_fav_date := today } := by
  simp [use_daily_favorite, h]

/-- Iterated consumption on a day whose date is already stamped just adds
to the counter. -/
theorem consumeN_same (today : String) :
    ∀ (n : Nat) (d : UserData), d.last_fav_date = today →
      consumeN n d today = { d with daily_favs := d.daily_favs + n } := by
  intro n
  induction n with
  | zero => intro d _; rfl
  | succ n ih =>
    intro d h
    show consumeN n (use_daily_favorite d today).2 today = _
    rw [use_daily_favorite_same d today h,
        ih { d with daily_favs := d.daily_favs + 1 } (by simpa using h)]
    simp [Nat.add_assoc, Nat.add_comm 1 n]

/-- C1: with no favorite slots yet used today, five consumptions leave
dailyFavoritesUsed at exactly 5, the date stamped to today; a sixth add
attempt through the favorite button is rejected without incrementing the
counter or touching the account; and the consume operation returns 5 minus
the counter after consumption. -/
theorem daily_favorite_gate (d : UserData) (today : String) (entry : FavoriteEntry)
    (e : UserData)
    (h0 : d.last_fav_date = today → d.daily_favs = 0)
    (hfav : d.favorites.any (fun p => p.id == entry.id) = false) :
    (consumeN 5 d today).daily_favs = 5 ∧
    (consumeN 5 d today).last_fav_date = today ∧
    fav_callback (consumeN 5 d today) today entry =
      (FavResult.dailyLimitReached, consumeN 5 d today) ∧
    (use_daily_favorite e today).1 =
      5 - ((use_daily_favorite e today).2.daily_favs : Int) := by
  have key : consumeN 5 d today = { d with daily_favs := 5, last_fav_date := today } := by
    by_cases h : d.last_fav_date = today
    · rw [consumeN_same today 5 d h, h0 h, ← h]
    · show consumeN 4 (use_daily_favorite d today).2 today = _
      rw [use_daily_favorite_diff d today h,
          consumeN_same today 4 _ rfl]
  refine ⟨by rw [key], by rw [key], ?_, rfl⟩
  rw [key]
  simp [fav_callback, can_add_favorite, hfav]

/-- Witness for C1: a fresh account on a concrete date. -/
theorem daily_favorite_gate_witness :
    (consumeN 5 defaultUserData ("2025-01-01")).daily_favs = 5 ∧
    (consumeN 5 defaultUserData ("2025-01-01")).last_fav_date = ("2025-01-01") ∧
    fav_callback (consumeN 5 defaultUserData ("2025-01-01")) ("2025-01-01") entry0 =
      (FavResult.dailyLimitReached, consumeN 5 defaultUserData ("2025-01-01")) ∧
    (use_daily_favorite defaultUserData ("2025-01-01")).1 =
      5 - ((use_daily_favorite defaultUserData ("2025-01-01")).2.daily_favs : Int) :=
  daily_favorite_gate defaultUserData ("2025-01-01") entry0 defaultUserData
    (fun _ => rfl) rfl

/-- C2: recordView increments viewCount by exactly 1, returns the new
count, and leaves the account's currency unchanged. -/
theorem increment_view_count_pure (d : UserData) (p : Post) :
    (increment_view_count d (some p)).1 = d.view_count + 1 ∧
    (increment_view_count d (some p)).2.view_count = d.view_count + 1 ∧
    (increment_view_count d (some p)).2.waifame = d.waifame :=
  ⟨rfl, rfl, rfl⟩

/-- The spec-side threshold table agrees with the if-chain of the source. -/
theorem fame_bonus_spec_eq (n : Nat) : artistFameBonusSpec n = fame_bonus_of_count n := rfl

/-- C9: the earned-currency computation of the source equals the spec
formula 1 + floor(max(0,score)/50) + floor(favCount/100) + fame bonus of
the first artist's post-count, failed or empty lookups counting as 0. -/
theorem calculate_waifame_matches_spec (lookup : String → Option Nat) (p : Post) :
    calculate_waifame lookup p = computeEarnedCurrencySpec lookup p := by
  unfold calculate_waifame computeEarnedCurrencySpec get_artist_fame_bonus
  cases hp : p.tag_string_artist with
  | nil => simp [fame_bonus_spec_eq, fame_bonus_of_count]
  | cons a rest => simp [fame_bonus_spec_eq]

/-- C10 (code bug): the success branches of vnext, of the bound-user image
advance, and of the bound-user video advance destructure the single
integer returned by increment_view_count into three names, which raises
instead of completing normally. -/
theorem view_count_unpack_fails (d : UserData) (vhist : List Nat) (pid : Nat)
    (acct : UserData) (hs : List Nat) (tags : String) (postid fid u : Nat) :
    (vnext_success d vhist pid).1 =
      Response.runtimeError ("TypeError: cannot unpack non-iterable int object") ∧
    (update_image
        { account := acct, hist := hs,
          session := { user_id := some (u + 1), current_tags := tags, post := postid } }
        (some fid)).1 =
      Response.runtimeError ("TypeError: cannot unpack non-iterable int object") ∧
    (update_video (some (u + 1)) d vhist pid).1 =
      Response.runtimeError ("TypeError: cannot unpack non-iterable int object") := by
  refine ⟨rfl, ?_, ?_⟩ <;>
    simp [update_image, update_video, py_truthy, unpack3, increment_view_count]

/-- C3 counterexample: a quiz bound to user 1 accepts an answer from user 2
and mutates the session state (the one-shot answered flag), so the quiz
answer transition does not check authorization. -/
theorem quiz_answer_ignores_bound_user :
    (quiz_answer_callback
        { correct_answer := "Rem", user_id := 1, answered := false } 2 ("Rem")).2 =
      { correct_answer := "Rem", user_id := 1, answered := true } ∧
    (quiz_answer_callback
        { correct_answer := "Rem", user_id := 1, answered := false } 2 ("Rem")).1 ≠
      Response.authDenied ∧
    (2 : Nat) ≠ 1 := by
  refine ⟨?_, ?_, by decide⟩ <;>
  · simp only [quiz_answer_callback]
    split <;> simp_all

/-- C3 amended: every transition of a bound image session and of a bound
blackjack round (filter change, advance, rewind, search, favorite toggle,
hit, stand) first checks authorization and rejects any other user without
mutating anything; unbound sessions accept any user. Quiz answers are the
exception and are excluded here. -/
theorem bound_session_auth_guard (w w2 : ImageWorld) (actor u : Nat)
    (fetched : Option Nat) (today : String) (entry : FavoriteEntry)
    (d : UserData) (g : Option BJGame) (mise : Int)
    (hb : w.session.user_id = some u) (hu : u ≠ 0) (hne : actor ≠ u)
    (hub : w2.session.user_id = none) :
    safe_callback w actor fetched = (Response.authDenied, w) ∧
    ques_callback w actor fetched = (Response.authDenied, w) ∧
    expl_callback w actor fetched = (Response.authDenied, w) ∧
    next_callback w actor fetched = (Response.authDenied, w) ∧
    rewind_callback w actor = (Response.authDenied, w) ∧
    search_callback w actor = (Response.authDenied, w) ∧
    fav_button_callback w actor today entry = (Response.authDenied, w) ∧
    bj_hit u actor d g mise = (Response.authDenied, d, g) ∧
    bj_stand u actor d g mise = (Response.authDenied, d, g) ∧
    check_user w2.session.user_id actor = true := by
  have hcu : check_user w.session.user_id actor = false := by
    simp [check_user, hb, py_truthy, hu, hne]
  refine ⟨?_, ?_, ?_, ?_, ?_, ?_, ?_, ?_, ?_, ?_⟩
  · simp [safe_callback, hcu]
  · simp [ques_callback, hcu]
  · simp [expl_callback, hcu]
  · simp [next_callback, hcu]
  · simp [rewind_callback, hcu]
  · simp [search_callback, hcu]
  · simp [fav_button_callback, hcu]
  · simp [bj_hit, hne]
  · simp [bj_stand, hne]
  · simp [check_user, hub, py_truthy]

/-- Witness for the amended C3 at concrete worlds and users. -/
theorem bound_session_auth_guard_witness :
    safe_callback wBound 2 none = (Response.authDenied, wBound) ∧
    ques_callback wBound 2 none = (Response.authDenied, wBound) ∧
    expl_callback wBound 2 none = (Response.authDenied, wBound) ∧
    next_callback wBound 2 none = (Response.authDenied, wBound) ∧
    rewind_callback wBound 2 = (Response.authDenied, wBound) ∧
    search_callback wBound 2 = (Response.authDenied, wBound) ∧
    fav_button_callback wBound 2 ("2025-01-01") entry0 = (Response.authDenied, wBound) ∧
    bj_hit 1 2 defaultUserData none 10 = (Response.authDenied, defaultUserData, none) ∧
    bj_stand 1 2 defaultUserData none 10 = (Response.authDenied, defaultUserData, none) ∧
    check_user wFree.session.user_id 2 = true :=
  bound_session_auth_guard wBound wFree 2 1 none ("2025-01-01") entry0
    defaultUserData none 10 rfl (by decide) (by decide) rfl

/-- C4 counterexample: the wager is not deducted or reserved when a
blackjack round starts, so a slots loss interleaved before the bust drives
the balance to -100 even though every operation passed its entry check. -/
theorem blackjack_wager_not_reserved :
    blackjack_start acct100 100 deckC4 = BJStart.playing gC4 acct100 ∧
    slots acct100 100 SlotSymbol.cherry SlotSymbol.lemon SlotSymbol.orange =
      some defaultUserData ∧
    (bj_hit 7 7 defaultUserData (some gC4) 100).2.1.waifame = -100 ∧
    ¬ (0 : Int) ≤ (bj_hit 7 7 defaultUserData (some gC4) 100).2.1.waifame := by
  refine ⟨by decide, by decide, by decide, by decide⟩

/-- C4 amended: a slots round that passes its entry checks leaves the
balance non-negative, the theft fine is floor-clamped at 0, and a
blackjack settlement (hit-bust or stand) keeps the balance non-negative
provided the balance at settlement still covers the wager; the entry check
at round start alone does not guarantee this, as the counterexample shows. -/
theorem minigame_loss_balance_floor (d dx : UserData) (mise : Int)
    (s1 s2 s3 : SlotSymbol) (g : BJGame) (u : Nat)
    (thief victim t1 v1 : UserData) (now fine : Int) (p : ℚ)
    (hslots : slots d mise s1 s2 s3 = some dx)
    (h0 : 0 ≤ d.waifame) (hm : 10 ≤ mise) (hmw : mise ≤ d.waifame)
    (hsteal : steal thief victim now false p = StealResult.failure fine t1 v1) :
    0 ≤ dx.waifame ∧
    0 ≤ (bj_hit u u d (some g) mise).2.1.waifame ∧
    0 ≤ (bj_stand u u d (some g) mise).2.1.waifame ∧
    0 ≤ t1.waifame := by
  refine ⟨?_, ?_, ?_, ?_⟩
  · simp only [slots] at hslots
    split_ifs at hslots
    all_goals
      rw [← Option.some.inj hslots]
      simp
      omega
  · unfold bj_hit
    split
    · exact h0
    · split
      · exact h0
      · split
        · exact h0
        · split
          · exact h0
          · dsimp only
            split
            · exact (by omega : (0 : Int) ≤ d.waifame - mise)
            · exact h0
  · unfold bj_stand
    split
    · exact h0
    · split
      · exact h0
      · split
        · exact h0
        · dsimp only
          split
          · exact (by omega : (0 : Int) ≤ d.waifame + mise * 2 - mise)
          · split
            · exact (by omega : (0 : Int) ≤ d.waifame - mise)
            · exact h0
  · simp only [steal] at hsteal
    split_ifs at hsteal
    rw [StealResult.failure.injEq] at hsteal
    rw [← hsteal.2.1]
    exact le_max_left 0 _

/-- Witness for the amended C4: concrete accounts, draws and round. -/
theorem minigame_loss_balance_floor_witness :
    (0 : Int) ≤ acct90.waifame ∧
    0 ≤ (bj_hit 7 7 acct100 (some gC4) 10).2.1.waifame ∧
    0 ≤ (bj_stand 7 7 acct100 (some gC4) 10).2.1.waifame ∧
    0 ≤ acct80cd.waifame :=
  minigame_loss_balance_floor acct100 acct90 10
    SlotSymbol.cherry SlotSymbol.lemon SlotSymbol.orange gC4 7
    acct100 acct100 acct80cd acct100 4000 20 (1 / 10)
    (by decide) (by decide) (by decide) (by decide)
    (by norm_num [steal, pyTrunc, acct100, acct80cd, defaultUserData])

/-- The soft-ace loop is the identity when the total is already at most 21. -/
theorem soften_of_le (v a : Nat) (h : v ≤ 21) : soften v a = v := by
  cases a with
  | zero => rfl
  | succ a =>
    show (if v > 21 then soften (v - 10) a else v) = v
    rw [if_neg (by omega)]

/-- When the soft-ace loop still ends above 21, every ace was softened. -/
theorem soften_gt (a : Nat) : ∀ v : Nat, 21 < soften v a → soften v a = v - 10 * a := by
  induction a with
  | zero => intro v _; simp [soften]
  | succ a ih =>
    intro v h
    by_cases hv : v > 21
    · have hstep : soften v (a + 1) = soften (v - 10) a := by
        show (if v > 21 then soften (v - 10) a else v) = soften (v - 10) a
        rw [if_pos hv]
      rw [hstep] at h ⊢
      rw [ih (v - 10) h]
      omega
    · have hstep : soften v (a + 1) = v := by
        show (if v > 21 then soften (v - 10) a else v) = v
        rw [if_neg hv]
      rw [hstep] at h
      exact absurd h hv

/-- C6 counterexample: a natural blackjack on an odd wager of 11 pays
int(11 * 2.5) = 27, which is not exactly 2.5 times the wager. -/
theorem natural_payout_floor_not_exact :
    blackjack_start acct100 11 deckC6 = BJStart.natural 27 acct116 ∧
    ¬ ((27 : ℚ) = 5 / 2 * 11) := by
  refine ⟨by decide, by norm_num⟩

/-- C6 amended: face cards count 10 and an ace counts 11 softened to 1
repeatedly while the total exceeds 21 and an unsoftened ace remains, so
ace plus king evaluates to 21; a two-card 21 at the deal settles
immediately as a natural blackjack paying the integer part of 2.5 times
the wager (exactly 2.5 times only for even wagers) before any player
action. -/
theorem blackjack_hand_value_and_natural (d : UserData) (mise : Int)
    (s t : String) (c3 c4 : Card) (rest : List Card)
    (h10 : 10 ≤ mise) (hw : mise ≤ d.waifame) :
    card_base_value ("J") = 10 ∧ card_base_value ("Q") = 10 ∧
    card_base_value ("K") = 10 ∧ card_base_value ("A") = 11 ∧
    hand_value [(("A" : String), s), (("K" : String), t)] = 21 ∧
    blackjack_start d mise ((("A" : String), s) :: (("K" : String), t) :: c3 :: c4 :: rest) =
      BJStart.natural (5 * mise / 2)
        { d with waifame := d.waifame + 5 * mise / 2 - mise } ∧
    (∀ hand : List Card, raw_hand_value hand ≤ 21 →
      hand_value hand = raw_hand_value hand) ∧
    (∀ hand : List Card, 21 < hand_value hand →
      hand_value hand = raw_hand_value hand - 10 * ace_count hand) := by
  have h21 : hand_value [(("A" : String), s), (("K" : String), t)] = 21 := rfl
  have hA : ¬ mise < 10 := by omega
  have hB : ¬ d.waifame < mise := by omega
  refine ⟨rfl, rfl, rfl, rfl, h21, ?_, ?_, ?_⟩
  · simp [blackjack_start, hA, hB, h21]
  · intro hand h
    exact soften_of_le (raw_hand_value hand) (ace_count hand) h
  · intro hand h
    exact soften_gt (ace_count hand) (raw_hand_value hand) h

/-- Witness for the amended C6 at a concrete account, wager and deck. -/
theorem blackjack_hand_value_and_natural_witness :
    card_base_value ("J") = 10 ∧ card_base_value ("Q") = 10 ∧
    card_base_value ("K") = 10 ∧ card_base_value ("A") = 11 ∧
    hand_value [(("A" : String), ("S" : String)), (("K" : String), ("H" : String))] = 21 ∧
    blackjack_start acct100 20
        ((("A" : String), ("S" : String)) :: (("K" : String), ("H" : String)) ::
          (("2" : String), ("D" : String)) :: (("3" : String), ("C" : String)) :: []) =
      BJStart.natural (5 * 20 / 2)
        { acct100 with waifame := acct100.waifame + 5 * 20 / 2 - 20 } ∧
    hand_value [(("2" : String), ("S" : String))] =
      raw_hand_value [(("2" : String), ("S" : String))] ∧
    hand_value
        [(("K" : String), ("S" : String)), (("Q" : String), ("H" : String)),
         (("5" : String), ("D" : String))] =
      raw_hand_value
          [(("K" : String), ("S" : String)), (("Q" : String), ("H" : String)),
           (("5" : String), ("D" : String))] -
        10 * ace_count
          [(("K" : String), ("S" : String)), (("Q" : String), ("H" : String)),
           (("5" : String), ("D" : String))] := by
  have h := blackjack_hand_value_and_natural acct100 20 ("S") ("H")
    (("2" : String), ("D" : String)) (("3" : String), ("C" : String)) []
    (by decide) (by decide)
  exact ⟨h.1, h.2.1, h.2.2.1, h.2.2.2.1, h.2.2.2.2.1, h.2.2.2.2.2.1,
    h.2.2.2.2.2.2.1 [(("2" : String), ("S" : String))] (by decide),
    h.2.2.2.2.2.2.2
      [(("K" : String), ("S" : String)), (("Q" : String), ("H" : String)),
       (("5" : String), ("D" : String))] (by decide)⟩

/-- C5: off cooldown and against a target holding at least 50, a success
draw transfers exactly max(floor(fraction x target), 10) from target to
actor (sum of balances preserved, target never negative); a failure draw
fines the actor max(floor(0.20 x own), 10) floored at 0 with the target
untouched; a target below 50 is rejected with no mutation. -/
theorem steal_transfer_correct (thief victim victim2 : UserData) (now : Int) (p : ℚ)
    (hcd : ¬ thief.last_steal + 60 * 60 - now > 0)
    (hp1 : 1 / 10 ≤ p) (hp2 : p ≤ 3 / 10)
    (h50 : 50 ≤ victim.waifame) (hpoor : victim2.waifame < 50) :
    pyTrunc (p * (victim.waifame : ℚ)) = ⌊p * (victim.waifame : ℚ)⌋ ∧
    steal thief victim now true p =
      StealResult.success (max (pyTrunc (p * (victim.waifame : ℚ))) 10)
        { thief with last_steal := now,
                     waifame := thief.waifame + max (pyTrunc (p * (victim.waifame : ℚ))) 10 }
        { victim with waifame := victim.waifame - max (pyTrunc (p * (victim.waifame : ℚ))) 10 } ∧
    (thief.waifame + max (pyTrunc (p * (victim.waifame : ℚ))) 10) +
        (victim.waifame - max (pyTrunc (p * (victim.waifame : ℚ))) 10) =
      thief.waifame + victim.waifame ∧
    0 ≤ victim.waifame - max (pyTrunc (p * (victim.waifame : ℚ))) 10 ∧
    steal thief victim now false p =
      StealResult.failure (max (pyTrunc ((1 / 5 : ℚ) * (thief.waifame : ℚ))) 10)
        { thief with last_steal := now,
                     waifame := max 0 (thief.waifame -
                       max (pyTrunc ((1 / 5 : ℚ) * (thief.waifame : ℚ))) 10) }
        victim ∧
    0 ≤ max (0 : Int) (thief.waifame -
        max (pyTrunc ((1 / 5 : ℚ) * (thief.waifame : ℚ))) 10) ∧
    steal thief victim2 now true p = StealResult.targetTooPoor ∧
    steal thief victim2 now false p = StealResult.targetTooPoor := by
  have hvq : (0 : ℚ) ≤ (victim.waifame : ℚ) := by
    have h : (0 : Int) ≤ victim.waifame := by omega
    exact_mod_cast h
  have hp0 : (0 : ℚ) ≤ p := le_trans (by norm_num) hp1
  have hpv : (0 : ℚ) ≤ p * (victim.waifame : ℚ) := mul_nonneg hp0 hvq
  have htr : pyTrunc (p * (victim.waifame : ℚ)) = ⌊p * (victim.waifame : ℚ)⌋ := by
    simp [pyTrunc, hpv]
  have hle : p * (victim.waifame : ℚ) ≤ (victim.waifame : ℚ) :=
    mul_le_of_le_one_left hvq (le_trans hp2 (by norm_num))
  have hfl : ⌊p * (victim.waifame : ℚ)⌋ ≤ victim.waifame := by
    have h := Int.floor_le_floor hle
    rwa [Int.floor_intCast] at h
  have hmax : max (pyTrunc (p * (victim.waifame : ℚ))) 10 ≤ victim.waifame := by
    rw [htr]
    exact max_le hfl (by omega)
  have hcd2 : ¬ now < thief.last_steal + 3600 := by omega
  refine ⟨htr, ?_, by omega, by omega, ?_, le_max_left 0 _, ?_, ?_⟩
  · simp [steal, hcd2, (by omega : ¬ victim.waifame < 50)]
    omega
  · simp [steal, hcd2, (by omega : ¬ victim.waifame < 50)]
    omega
  · simp [steal, hcd2, hpoor]
  · simp [steal, hcd2, hpoor]

/-- Witness for C5: thief and victim both holding 100, fraction 1/5. -/
theorem steal_transfer_correct_witness :
    pyTrunc ((1 / 5 : ℚ) * (acct100.waifame : ℚ)) =
      ⌊(1 / 5 : ℚ) * (acct100.waifame : ℚ)⌋ ∧
    steal acct100 acct100 4000 true (1 / 5) =
      StealResult.success (max (pyTrunc ((1 / 5 : ℚ) * (acct100.waifame : ℚ))) 10)
        { acct100 with last_steal := 4000,
                       waifame := acct100.waifame +
                         max (pyTrunc ((1 / 5 : ℚ) * (acct100.waifame : ℚ))) 10 }
        { acct100 with waifame := acct100.waifame -
                         max (pyTrunc ((1 / 5 : ℚ) * (acct100.waifame : ℚ))) 10 } ∧
    (acct100.waifame + max (pyTrunc ((1 / 5 : ℚ) * (acct100.waifame : ℚ))) 10) +
        (acct100.waifame - max (pyTrunc ((1 / 5 : ℚ) * (acct100.waifame : ℚ))) 10) =
      acct100.waifame + acct100.waifame ∧
    0 ≤ acct100.waifame - max (pyTrunc ((1 / 5 : ℚ) * (acct100.waifame : ℚ))) 10 ∧
    steal acct100 acct100 4000 false (1 / 5) =
      StealResult.failure (max (pyTrunc ((1 / 5 : ℚ) * (acct100.waifame : ℚ))) 10)
        { acct100 with last_steal := 4000,
                       waifame := max 0 (acct100.waifame -
                         max (pyTrunc ((1 / 5 : ℚ) * (acct100.waifame : ℚ))) 10) }
        acct100 ∧
    0 ≤ max (0 : Int) (acct100.waifame -
        max (pyTrunc ((1 / 5 : ℚ) * (acct100.waifame : ℚ))) 10) ∧
    steal acct100 defaultUserData 4000 true (1 / 5) = StealResult.targetTooPoor ∧
    steal acct100 defaultUserData 4000 false (1 / 5) = StealResult.targetTooPoor :=
  steal_transfer_correct acct100 acct100 defaultUserData 4000 (1 / 5)
    (by decide) (by norm_num) (by norm_num) (by decide) (by decide)

/-- C7: the daily claim on a new date pays the uniform draw plus
min(streak x 10, 100) with the streak continuing only when the stored date
is exactly yesterday (else resetting to 1), and stamps the date; a claim
on the stored date, and a second claim after a successful one, are
rejected with no state change. -/
theorem daily_claim_correct (d e : UserData) (today yesterday y2 : String)
    (draw draw2 : Nat)
    (hd : d.last_daily ≠ today) (_hr1 : 50 ≤ draw) (_hr2 : draw ≤ 150)
    (he : e.last_daily = today) :
    daily d today yesterday draw =
      some { d with
             waifame := d.waifame +
               ((draw + min ((if d.last_daily = yesterday then d.daily_streak + 1 else 1) * 10)
                   100 : Nat) : Int),
             last_daily := today,
             daily_streak := if d.last_daily = yesterday then d.daily_streak + 1 else 1 } ∧
    daily e today yesterday draw = none ∧
    daily { d with
            waifame := d.waifame +
              ((draw + min ((if d.last_daily = yesterday then d.daily_streak + 1 else 1) * 10)
                  100 : Nat) : Int),
            last_daily := today,
            daily_streak := if d.last_daily = yesterday then d.daily_streak + 1 else 1 }
        today y2 draw2 = none := by
  refine ⟨?_, ?_, ?_⟩
  · simp [daily, hd]
  · simp [daily, he]
  · simp [daily]

/-- Witness for C7: fresh account claiming on 2025-01-02 with draw 100. -/
theorem daily_claim_correct_witness :
    daily defaultUserData ("2025-01-02") ("2025-01-01") 100 =
      some { defaultUserData with
             waifame := defaultUserData.waifame +
               ((100 + min ((if defaultUserData.last_daily = ("2025-01-01") then
                   defaultUserData.daily_streak + 1 else 1) * 10) 100 : Nat) : Int),
             last_daily := ("2025-01-02"),
             daily_streak := if defaultUserData.last_daily = ("2025-01-01") then
               defaultUserData.daily_streak + 1 else 1 } ∧
    daily acctClaimed ("2025-01-02") ("2025-01-01") 100 = none ∧
    daily { defaultUserData with
            waifame := defaultUserData.waifame +
              ((100 + min ((if defaultUserData.last_daily = ("2025-01-01") then
                  defaultUserData.daily_streak + 1 else 1) * 10) 100 : Nat) : Int),
            last_daily := ("2025-01-02"),
            daily_streak := if defaultUserData.last_daily = ("2025-01-01") then
              defaultUserData.daily_streak + 1 else 1 }
        ("2025-01-02") ("2025-01-01") 77 = none :=
  daily_claim_correct defaultUserData acctClaimed ("2025-01-02") ("2025-01-01")
    ("2025-01-01") 100 77 (by decide) (by decide) (by decide) rfl

/-- C8: with fewer than two history entries rewind is a no-op reporting
nothing to go back to; with two or more it pops exactly the most recent
entry (length strictly decreases by 1) and the displayed item is the new
tail; the image and the independent video history behave identically. -/
theorem rewind_pop_correct (h1 h2 : List Nat) (w : ImageWorld) (actor : Nat)
    (hlen1 : h1.length < 2) (hlen2 : 2 ≤ h2.length)
    (hauth : check_user w.session.user_id actor = true)
    (hwh : w.hist.length < 2) :
    image_rewind h1 = none ∧
    video_rewind h1 = none ∧
    image_rewind h2 = some ((h2.dropLast.getLast?).getD 0, h2.dropLast) ∧
    video_rewind h2 = some ((h2.dropLast.getLast?).getD 0, h2.dropLast) ∧
    h2.dropLast.length + 1 = h2.length ∧
    rewind_callback w actor = (Response.nothingToRewind, w) := by
  have hlen' : h2.dropLast.length = h2.length - 1 := List.length_dropLast h2
  have hne : h2.dropLast ≠ [] := by
    intro hcon
    rw [hcon] at hlen'
    simp at hlen'
    omega
  obtain ⟨x, hx⟩ :=
    Option.ne_none_iff_exists'.mp (fun hnone => hne (List.getLast?_eq_none_iff.mp hnone))
  refine ⟨?_, ?_, ?_, ?_, by omega, ?_⟩
  · unfold image_rewind
    rw [if_neg (by omega)]
  · unfold video_rewind
    rw [if_neg (by omega)]
  · simp [image_rewind, hx, (by omega : 1 < h2.length)]
  · simp [video_rewind, hx, (by omega : 1 < h2.length)]
  · have hnone : image_rewind w.hist = none := by
      unfold image_rewind
      rw [if_neg (by omega)]
    simp [rewind_callback, hauth, hnone]

/-- Witness for C8: histories of length 1 and 3 and a length-1 world. -/
theorem rewind_pop_correct_witness :
    image_rewind [5] = none ∧
    video_rewind [5] = none ∧
    image_rewind [1, 2, 3] =
      some ((([1, 2, 3] : List Nat).dropLast.getLast?).getD 0,
        ([1, 2, 3] : List Nat).dropLast) ∧
    video_rewind [1, 2, 3] =
      some ((([1, 2, 3] : List Nat).dropLast.getLast?).getD 0,
        ([1, 2, 3] : List Nat).dropLast) ∧
    ([1, 2, 3] : List Nat).dropLast.length + 1 = ([1, 2, 3] : List Nat).length ∧
    rewind_callback wRew 1 = (Response.nothingToRewind, wRew) :=
  rewind_pop_correct [5] [1, 2, 3] wRew 1 (by decide) (by decide) (by decide) (by decide)
